import Mathlib

/-!
Verification development for an ESLint-style rule engine that inspects a
JS/JSX syntax tree:

* a "conditional-sibling detector" that flags conditionally rendered text
  nodes sitting next to non-whitespace siblings inside JSX
  (rule `no-conditional-text-nodes-with-siblings`), and
* return-value rules over function components found by a structured
  control-flow walk of the function body
  (rules `react-components-return-jsx` and the
  "must not return literal text" variant).

The syntax tree is modelled as a nested inductive; since the original
visitors look upward through parent links, every predicate takes the list
of ancestors of the node under inspection (nearest ancestor first) as an
explicit context argument.  `Object.is` identity comparisons on nodes are
modelled by comparison of the per-node unique id, and `range[0]` / `start`
offsets by an explicit start position carried on every node.
-/

/-- Values carried by a JS `Literal` AST node. -/
inductive LitVal where
  | str (s : String)
  | num (n : Int)
  | bool (b : Bool)
  | null
deriving DecidableEq, Repr

/-- The five loop statement kinds that the return walkers treat uniformly. -/
inductive LoopKind where
  | forStmt
  | forIn
  | forOf
  | whileStmt
  | doWhile
deriving DecidableEq, Repr

/-- A JS/JSX syntax tree node.  Every constructor carries a unique node id
(standing in for JS object identity) and a start offset (standing in for
`node.range[0]`).  Only the node kinds and fields that the rules inspect
are modelled. -/
inductive Node where
  | literal (nodeId startPos : Nat) (value : LitVal)
  | templateLiteral (nodeId startPos : Nat) (expressions : List Node)
  | identifier (nodeId startPos : Nat) (name : String)
  | memberExpression (nodeId startPos : Nat) (object property : Node)
  | callExpression (nodeId startPos : Nat) (callee : Node) (args : List Node)
  | conditionalExpression (nodeId startPos : Nat) (test consequent alternate : Node)
  | logicalExpression (nodeId startPos : Nat) (left right : Node)
  | binaryExpression (nodeId startPos : Nat) (left right : Node)
  | jsxElement (nodeId startPos : Nat) (children : List Node)
  | jsxExpressionContainer (nodeId startPos : Nat) (expression : Node)
  | jsxText (nodeId startPos : Nat) (value : String)
  | returnStatement (nodeId startPos : Nat) (argument : Option Node)
  | blockStatement (nodeId startPos : Nat) (body : List Node)
  | ifStatement (nodeId startPos : Nat) (test consequent : Node) (alternate : Option Node)
  | loopStatement (nodeId startPos : Nat) (kind : LoopKind) (body : Node)
  | switchCase (nodeId startPos : Nat) (consequent : List Node)
  | switchStatement (nodeId startPos : Nat) (cases : List Node)
  | tryStatement (nodeId startPos : Nat) (block : Node) (handler finalizer : Option Node)
  | functionDeclaration (nodeId startPos : Nat) (name : Option String) (body : Option Node)
  | expressionStatement (nodeId startPos : Nat) (expression : Node)

/-- The ESLint `node.type` string of a node; the source code dispatches on
these strings. -/
def typeOf : Node → String
  | .literal .. => "Literal"
  | .templateLiteral .. => "TemplateLiteral"
  | .identifier .. => "Identifier"
  | .memberExpression .. => "MemberExpression"
  | .callExpression .. => "CallExpression"
  | .conditionalExpression .. => "ConditionalExpression"
  | .logicalExpression .. => "LogicalExpression"
  | .binaryExpression .. => "BinaryExpression"
  | .jsxElement .. => "JSXElement"
  | .jsxExpressionContainer .. => "JSXExpressionContainer"
  | .jsxText .. => "JSXText"
  | .returnStatement .. => "ReturnStatement"
  | .blockStatement .. => "BlockStatement"
  | .ifStatement .. => "IfStatement"
  | .loopStatement _ _ .forStmt _ => "ForStatement"
  | .loopStatement _ _ .forIn _ => "ForInStatement"
  | .loopStatement _ _ .forOf _ => "ForOfStatement"
  | .loopStatement _ _ .whileStmt _ => "WhileStatement"
  | .loopStatement _ _ .doWhile _ => "DoWhileStatement"
  | .switchCase .. => "SwitchCase"
  | .switchStatement .. => "SwitchStatement"
  | .tryStatement .. => "TryStatement"
  | .functionDeclaration .. => "FunctionDeclaration"
  | .expressionStatement .. => "ExpressionStatement"

/-- Unique id of a node (stands in for JS object identity). -/
def nid : Node → Nat
  | .literal i _ _ => i
  | .templateLiteral i _ _ => i
  | .identifier i _ _ => i
  | .memberExpression i _ _ _ => i
  | .callExpression i _ _ _ => i
  | .conditionalExpression i _ _ _ _ => i
  | .logicalExpression i _ _ _ => i
  | .binaryExpression i _ _ _ => i
  | .jsxElement i _ _ => i
  | .jsxExpressionContainer i _ _ => i
  | .jsxText i _ _ => i
  | .returnStatement i _ _ => i
  | .blockStatement i _ _ => i
  | .ifStatement i _ _ _ _ => i
  | .loopStatement i _ _ _ => i
  | .switchCase i _ _ => i
  | .switchStatement i _ _ => i
  | .tryStatement i _ _ _ _ => i
  | .functionDeclaration i _ _ _ => i
  | .expressionStatement i _ _ => i

/-- Start offset of a node (stands in for `node.range ? node.range[0] : node.start`). -/
def nstart : Node → Nat
  | .literal _ s _ => s
  | .templateLiteral _ s _ => s
  | .identifier _ s _ => s
  | .memberExpression _ s _ _ => s
  | .callExpression _ s _ _ => s
  | .conditionalExpression _ s _ _ _ => s
  | .logicalExpression _ s _ _ => s
  | .binaryExpression _ s _ _ => s
  | .jsxElement _ s _ => s
  | .jsxExpressionContainer _ s _ => s
  | .jsxText _ s _ => s
  | .returnStatement _ s _ => s
  | .blockStatement _ s _ => s
  | .ifStatement _ s _ _ _ => s
  | .loopStatement _ s _ _ => s
  | .switchCase _ s _ => s
  | .switchStatement _ s _ => s
  | .tryStatement _ s _ _ _ => s
  | .functionDeclaration _ s _ _ => s
  | .expressionStatement _ s _ => s

/-- The JS `node.children` property: it is only populated on JSX container
elements; on every other node kind accessing it yields `undefined`,
modelled as `none`. -/
def childrenOf : Node → Option (List Node)
  | .jsxElement _ _ kids => some kids
  | _ => none

/-- The JS `node.expression` property of a `JSXExpressionContainer`
(`undefined`, i.e. `none`, on other node kinds). -/
def exprOf : Node → Option Node
  | .jsxExpressionContainer _ _ e => some e
  | _ => none

/-- The JS `typeof node.value` string: only `Literal` nodes carry a
`value`; `typeof null` is `"object"` and a missing property is
`"undefined"`. -/
def jsTypeofValue : Node → String
  | .literal _ _ (.str _) => "string"
  | .literal _ _ (.num _) => "number"
  | .literal _ _ (.bool _) => "boolean"
  | .literal _ _ .null => "object"
  | _ => "undefined"

/-- The `consequent` statement list of a `SwitchCase` node. -/
def consequentOf : Node → List Node
  | .switchCase _ _ cs => cs
  | _ => []

/-- The AST children of a node in document order, used to model the host
framework's depth-first traversal that drives the per-node-kind visitors. -/
def astChildren : Node → List Node
  | .literal .. => []
  | .templateLiteral _ _ es => es
  | .identifier .. => []
  | .memberExpression _ _ o p => [o, p]
  | .callExpression _ _ c args => c :: args
  | .conditionalExpression _ _ t c a => [t, c, a]
  | .logicalExpression _ _ l r => [l, r]
  | .binaryExpression _ _ l r => [l, r]
  | .jsxElement _ _ kids => kids
  | .jsxExpressionContainer _ _ e => [e]
  | .jsxText .. => []
  | .returnStatement _ _ arg => arg.toList
  | .blockStatement _ _ body => body
  | .ifStatement _ _ t c a => t :: c :: a.toList
  | .loopStatement _ _ _ b => [b]
  | .switchCase _ _ cs => cs
  | .switchStatement _ _ cs => cs
  | .tryStatement _ _ b h f => b :: (h.toList ++ f.toList)
  | .functionDeclaration _ _ _ b => b.toList
  | .expressionStatement _ _ e => [e]

/-- One reported violation: the id of the node passed to `context.report`
and the message id of the rule. -/
structure Diag where
  node : Nat
  messageId : String
deriving DecidableEq, Repr

/-! ## Rule `no-conditional-text-nodes-with-siblings` (the conditional-sibling detector) -/

namespace NoConditionalTextNodes

/-- Characters removed by the JS `String.prototype.trim`. -/
def jsWhitespaceChar (c : Char) : Bool :=
  c == ' ' || c == '\t' || c == '\n' || c == '\r' || c == '\x0b' || c == '\x0c'

/-- Model of the JS test `value !== '' && value.trim() === ''`: the string
is non-empty and consists solely of whitespace characters. -/
def trimsToEmptyNonEmpty (s : String) : Bool :=
  !s.data.isEmpty && s.data.all jsWhitespaceChar

/-- Source `isWhitespace(node)`: a string `Literal` or a `JSXText` node
whose value is non-empty but trims to the empty string.  Note the empty
string is deliberately NOT whitespace.  The predicate never consults the
parent. -/
def isWhitespace (n : Node) : Bool :=
  match n with
  | .literal _ _ (.str s) => trimsToEmptyNonEmpty s
  | .jsxText _ _ s => trimsToEmptyNonEmpty s
  | _ => false

/-- Source `isConditionallyRendered(node)`: the immediate parent exists and
is a `ConditionalExpression` or a `LogicalExpression`.  `ctx` is the list
of ancestors of the inspected node, nearest first. -/
def isConditionallyRendered (ctx : List Node) : Bool :=
  match ctx with
  | p :: _ => typeOf p == "ConditionalExpression" || typeOf p == "LogicalExpression"
  | [] => false

/-- Source `isChildOfJSXEspressionContainer(node)` (sic): the immediate
parent exists and is a `JSXExpressionContainer`. -/
def isChildOfJSXEspressionContainer (ctx : List Node) : Bool :=
  match ctx with
  | p :: _ => typeOf p == "JSXExpressionContainer"
  | [] => false

/-- Source `isChildOfJSXElement(node)`: the immediate parent exists and is
a `JSXElement`. -/
def isChildOfJSXElement (ctx : List Node) : Bool :=
  match ctx with
  | p :: _ => typeOf p == "JSXElement"
  | [] => false

/-- Source `hasSiblings(node)`: the parent exists, has a `children` list of
more than one entry, and some entry other than the node itself (identity
modelled by node id) is not whitespace. -/
def hasSiblings (ctx : List Node) (n : Node) : Bool :=
  match ctx with
  | p :: _ =>
      (match childrenOf p with
       | some kids =>
           decide (kids.length > 1) &&
           kids.any (fun child => (nid child != nid n) && !isWhitespace child)
       | none => false)
  | [] => false

/-- Source `conditionalSiblingsPreceedNode(node)` (sic): among the parent's
children that start strictly before the node and are not whitespace, some
is a `JSXExpressionContainer` whose expression is a `ConditionalExpression`
or `LogicalExpression`. -/
def conditionalSiblingsPreceedNode (ctx : List Node) (n : Node) : Bool :=
  match ctx with
  | p :: _ =>
      (match childrenOf p with
       | some kids =>
           (kids.filter (fun child =>
              decide (nstart child < nstart n) && !isWhitespace child)).any
             (fun child =>
                typeOf child == "JSXExpressionContainer" &&
                (match exprOf child with
                 | some e =>
                     typeOf e == "ConditionalExpression" ||
                     typeOf e == "LogicalExpression"
                 | none => false))
       | none => false)
  | [] => false

/-- Source `functionWasCalled(node)`: walk the ancestors; a
`CallExpression` yields true.  The source also has an early-false arm for
parents of type `ReturnExpression`, a node type that no AST node ever
carries, which is kept here verbatim (it can never fire since `typeOf`
yields it for no constructor). -/
def functionWasCalled (ctx : List Node) : Bool :=
  match ctx with
  | p :: rest =>
      if typeOf p == "CallExpression" then true
      else if typeOf p == "ReturnExpression" then false
      else functionWasCalled rest
  | [] => false

/-- Source `isCondition(node)`: the node is the `test` of a parent
`ConditionalExpression`, or the `left` operand of a parent
`LogicalExpression` (`Object.is` modelled by node-id equality). -/
def isCondition (ctx : List Node) (n : Node) : Bool :=
  match ctx with
  | .conditionalExpression _ _ t _ _ :: _ => nid t == nid n
  | .logicalExpression _ _ l _ :: _ => nid l == nid n
  | _ => false

/-- Source `isBinaryExpression(node)`: the parent is a `BinaryExpression`
that is itself in condition position. -/
def isBinaryExpression (ctx : List Node) (_n : Node) : Bool :=
  match ctx with
  | p :: rest =>
      if typeOf p == "BinaryExpression" then isCondition rest p else false
  | [] => false

/-- Source `getCallExpression(node)`: the nearest `CallExpression` ancestor
together with that ancestor's own ancestor context, or `none`. -/
def getCallExpression (ctx : List Node) : Option (Node × List Node) :=
  match ctx with
  | p :: rest =>
      if typeOf p == "CallExpression" then some (p, rest)
      else getCallExpression rest
  | [] => none

/-- The registered `Literal` visitor: flags a conditionally rendered,
non-whitespace, non-null, non-boolean literal that is the direct content of
a `JSXExpressionContainer` child of a `JSXElement` with non-whitespace
siblings. -/
def literalVisitor (ctx : List Node) (n : Node) : List Diag :=
  match n with
  | .literal i _ v =>
      if !isWhitespace n &&
         v != LitVal.null &&
         jsTypeofValue n != "boolean" &&
         isConditionallyRendered ctx &&
         isChildOfJSXEspressionContainer ctx.tail &&
         ctx.tail.head?.isSome &&
         isChildOfJSXElement ctx.tail.tail &&
         (match ctx.tail.head? with
          | some p2 => hasSiblings ctx.tail.tail p2
          | none => false)
      then [⟨i, "conditional-text-node"⟩] else []
  | _ => []

/-- The registered `TemplateLiteral` visitor: same positional conditions as
the `Literal` visitor. -/
def templateLiteralVisitor (ctx : List Node) (n : Node) : List Diag :=
  match n with
  | .templateLiteral i _ _ =>
      if !isWhitespace n &&
         isConditionallyRendered ctx &&
         isChildOfJSXEspressionContainer ctx.tail &&
         ctx.tail.head?.isSome &&
         isChildOfJSXElement ctx.tail.tail &&
         (match ctx.tail.head? with
          | some p2 => hasSiblings ctx.tail.tail p2
          | none => false)
      then [⟨i, "conditional-text-node"⟩] else []
  | _ => []

/-- The registered `JSXText` visitor: flags a static non-whitespace text
node with non-whitespace siblings that is preceded by a conditional
expression container. -/
def jsxTextVisitor (ctx : List Node) (n : Node) : List Diag :=
  match n with
  | .jsxText i _ _ =>
      if !isWhitespace n &&
         hasSiblings ctx n &&
         conditionalSiblingsPreceedNode ctx n
      then [⟨i, "text-node-preceeded-by-conditional"⟩] else []
  | _ => []

/-- The registered `MemberExpression` visitor: flags a conditionally
rendered member access in the same position as the `Literal` visitor,
except when the access is itself a condition test or the operand of a
binary comparison used as a test.  The source passes an extra ignored
second argument to `hasSiblings`. -/
def memberExpressionVisitor (ctx : List Node) (n : Node) : List Diag :=
  match n with
  | .memberExpression i _ _ _ =>
      if isCondition ctx n || isBinaryExpression ctx n then []
      else if isConditionallyRendered ctx &&
              isChildOfJSXEspressionContainer ctx.tail &&
              ctx.tail.head?.isSome &&
              isChildOfJSXElement ctx.tail.tail &&
              (match ctx.tail.head? with
               | some p2 => hasSiblings ctx.tail.tail p2
               | none => false)
      then [⟨i, "conditional-text-node"⟩] else []
  | _ => []

/-- The registered `Identifier` visitor: intended for calls to
`toLocaleString` or `toString`, reporting at the enclosing call
expression.  The outer guard of the source only admits the name
`toLocaleString`; the inner guard (kept verbatim) also admits
`toString`. -/
def identifierVisitor (ctx : List Node) (n : Node) : List Diag :=
  match n with
  | .identifier _ _ name =>
      if name == "toLocaleString" && functionWasCalled ctx then
        if (name == "toLocaleString" || name == "toString") && functionWasCalled ctx then
          match getCallExpression ctx with
          | some (ce, rest) =>
              if isConditionallyRendered rest &&
                 rest.head?.isSome &&
                 isChildOfJSXEspressionContainer rest.tail &&
                 rest.tail.head?.isSome &&
                 isChildOfJSXElement rest.tail.tail &&
                 (match rest.tail.head? with
                  | some p2 => hasSiblings rest.tail.tail p2
                  | none => false)
              then [⟨nid ce, "conditional-text-node"⟩] else []
          | none => []
        else []
      else []
  | _ => []

/-- All visitors of the rule applied to one node: the host framework
invokes the visitor registered for the node's kind; since each visitor
returns `[]` on a kind mismatch, concatenating them models that
dispatch. -/
def visitNode (ctx : List Node) (n : Node) : List Diag :=
  literalVisitor ctx n ++ templateLiteralVisitor ctx n ++ jsxTextVisitor ctx n ++
    memberExpressionVisitor ctx n ++ identifierVisitor ctx n

mutual

/-- Depth-first traversal driving the visitors, accumulating ancestor
contexts on the way down: this models the host framework's single walk
that invokes the registered visitor on every node in document order. -/
def walk : List Node → Node → List Diag
  | ctx, n@(.literal ..) => visitNode ctx n
  | ctx, n@(.templateLiteral _ _ es) => visitNode ctx n ++ walkList (n :: ctx) es
  | ctx, n@(.identifier ..) => visitNode ctx n
  | ctx, n@(.memberExpression _ _ o p) =>
      visitNode ctx n ++ walk (n :: ctx) o ++ walk (n :: ctx) p
  | ctx, n@(.callExpression _ _ c args) =>
      visitNode ctx n ++ walk (n :: ctx) c ++ walkList (n :: ctx) args
  | ctx, n@(.conditionalExpression _ _ t c a) =>
      visitNode ctx n ++ walk (n :: ctx) t ++ walk (n :: ctx) c ++ walk (n :: ctx) a
  | ctx, n@(.logicalExpression _ _ l r) =>
      visitNode ctx n ++ walk (n :: ctx) l ++ walk (n :: ctx) r
  | ctx, n@(.binaryExpression _ _ l r) =>
      visitNode ctx n ++ walk (n :: ctx) l ++ walk (n :: ctx) r
  | ctx, n@(.jsxElement _ _ kids) => visitNode ctx n ++ walkList (n :: ctx) kids
  | ctx, n@(.jsxExpressionContainer _ _ e) => visitNode ctx n ++ walk (n :: ctx) e
  | ctx, n@(.jsxText ..) => visitNode ctx n
  | ctx, n@(.returnStatement _ _ arg) => visitNode ctx n ++ walkOpt (n :: ctx) arg
  | ctx, n@(.blockStatement _ _ body) => visitNode ctx n ++ walkList (n :: ctx) body
  | ctx, n@(.ifStatement _ _ t c a) =>
      visitNode ctx n ++ walk (n :: ctx) t ++ walk (n :: ctx) c ++ walkOpt (n :: ctx) a
  | ctx, n@(.loopStatement _ _ _ b) => visitNode ctx n ++ walk (n :: ctx) b
  | ctx, n@(.switchCase _ _ cs) => visitNode ctx n ++ walkList (n :: ctx) cs
  | ctx, n@(.switchStatement _ _ cs) => visitNode ctx n ++ walkList (n :: ctx) cs
  | ctx, n@(.tryStatement _ _ b h f) =>
      visitNode ctx n ++ walk (n :: ctx) b ++ walkOpt (n :: ctx) h ++ walkOpt (n :: ctx) f
  | ctx, n@(.functionDeclaration _ _ _ b) => visitNode ctx n ++ walkOpt (n :: ctx) b
  | ctx, n@(.expressionStatement _ _ e) => visitNode ctx n ++ walk (n :: ctx) e
termination_by _ctx n => sizeOf n

/-- Traversal of a list of sibling nodes sharing one ancestor context. -/
def walkList : List Node → List Node → List Diag
  | _, [] => []
  | ctx, n :: rest => walk ctx n ++ walkList ctx rest
termination_by _ctx l => sizeOf l

/-- Traversal of an optional child node. -/
def walkOpt : List Node → Option Node → List Diag
  | _, none => []
  | ctx, some n => walk ctx n
termination_by _ctx o => sizeOf o

end

/-- Run the conditional-sibling detector over a whole (sub)tree, returning
every diagnostic emitted during the host framework's depth-first walk. -/
def runDetector (n : Node) : List Diag :=
  walk [] n

end NoConditionalTextNodes

/-! ## Rule `react-components-return-jsx` -/

namespace ReactComponentsReturnJsx

/-- Source `getIsCapitalised(name)`: `name && typeof name === 'string' &&
name[0] === name[0].toUpperCase()`.  The empty string is falsy in JS, so it
fails the check; otherwise the first character must equal its upper-cased
form. -/
def getIsCapitalised (name : String) : Bool :=
  match name.data with
  | [] => false
  | c :: _ => c == c.toUpper

mutual

/-- Source `findReturnStatements(node)`: reports every reachable return
statement whose argument exists and is not a `JSXElement`, then recurses
through block, if/else, loop, switch and try/catch/finally structure; any
other node kind (including a nested `FunctionDeclaration`) stops the
traversal. -/
def findReturnStatements : Node → List Diag
  | .returnStatement i _ arg =>
      (match arg with
       | some a => if typeOf a != "JSXElement" then [⟨i, "return-value-is-not-jsx"⟩] else []
       | none => [])
  | .blockStatement _ _ body => frList body
  | .ifStatement _ _ _ cons alt => findReturnStatements cons ++ frOpt alt
  | .loopStatement _ _ _ body => findReturnStatements body
  | .switchStatement _ _ cases => frCases cases
  | .tryStatement _ _ blk handler finalizer =>
      findReturnStatements blk ++ frOpt handler ++ frOpt finalizer
  | _ => []
termination_by n => sizeOf n

/-- Traversal of the ordered statements of a block, in order. -/
def frList : List Node → List Diag
  | [] => []
  | n :: rest => findReturnStatements n ++ frList rest
termination_by l => sizeOf l

/-- Traversal of an optional alternate / handler body / finalizer. -/
def frOpt : Option Node → List Diag
  | some n => findReturnStatements n
  | none => []
termination_by o => sizeOf o

/-- Traversal of every statement of every switch case's consequent list. -/
def frCases : List Node → List Diag
  | [] => []
  | sc :: rest => frList (consequentOf sc) ++ frCases rest
termination_by l => sizeOf l
decreasing_by
  · cases n <;> simp [consequentOf] <;> omega
  · simp +arith

end

/-- The registered `FunctionDeclaration` visitor: skip a declaration with
no body; determine the function name (`node.id && node.id.name`); scan the
body only when the name is a string passing `getIsCapitalised`. -/
def functionDeclarationVisitor (n : Node) : List Diag :=
  match n with
  | .functionDeclaration _ _ nameOpt bodyOpt =>
      (match bodyOpt with
       | none => []
       | some body =>
           (match nameOpt with
            | some nm => if getIsCapitalised nm then findReturnStatements body else []
            | none => []))
  | _ => []

end ReactComponentsReturnJsx

/-! ## The broader "must not return literal text" rule variant
(`findAndReportReturnStatements`): flags a return whose argument is a
`TemplateLiteral`, or a `Literal` whose value is a string or a number. -/

namespace NoTextNodesVariant

mutual

/-- Source `findAndReportReturnStatements(node)`: the same structured
control-flow walk as `findReturnStatements`, but a reachable return is
reported when its argument is a `TemplateLiteral` or a string/number
`Literal`. -/
def findAndReportReturnStatements : Node → List Diag
  | .returnStatement i _ arg =>
      (match arg with
       | some a =>
           if typeOf a == "TemplateLiteral" ||
              (typeOf a == "Literal" &&
                (jsTypeofValue a == "string" || jsTypeofValue a == "number"))
           then [⟨i, "return-value-is-text-node"⟩] else []
       | none => [])
  | .blockStatement _ _ body => farList body
  | .ifStatement _ _ _ cons alt => findAndReportReturnStatements cons ++ farOpt alt
  | .loopStatement _ _ _ body => findAndReportReturnStatements body
  | .switchStatement _ _ cases => farCases cases
  | .tryStatement _ _ blk handler finalizer =>
      findAndReportReturnStatements blk ++ farOpt handler ++ farOpt finalizer
  | _ => []
termination_by n => sizeOf n

/-- Traversal of the ordered statements of a block, in order. -/
def farList : List Node → List Diag
  | [] => []
  | n :: rest => findAndReportReturnStatements n ++ farList rest
termination_by l => sizeOf l

/-- Traversal of an optional alternate / handler body / finalizer. -/
def farOpt : Option Node → List Diag
  | some n => findAndReportReturnStatements n
  | none => []
termination_by o => sizeOf o

/-- Traversal of every statement of every switch case's consequent list. -/
def farCases : List Node → List Diag
  | [] => []
  | sc :: rest => farList (consequentOf sc) ++ farCases rest
termination_by l => sizeOf l
decreasing_by
  · cases n <;> simp [consequentOf] <;> omega
  · simp +arith

end

end NoTextNodesVariant

/-! ## Shared helper lemmas -/

/-- A lower-case ASCII letter is changed by `Char.toUpper`, so it fails the
first-character capitalisation test. -/
theorem isLower_beq_toUpper_false (c : Char) (h : c.isLower = true) :
    (c == c.toUpper) = false := by
  have h1 : 97 ≤ c.val ∧ c.val ≤ 122 := by
    simpa [Char.isLower, Bool.and_eq_true, decide_eq_true_eq] using h
  have hn : 97 ≤ c.toNat ∧ c.toNat ≤ 122 := ⟨h1.1, h1.2⟩
  have hv : (c.toNat - 32).isValidChar := by
    left; omega
  have hup : c.toUpper = Char.ofNat (c.toNat - 32) := by
    simp only [Char.toUpper]
    rw [if_pos ⟨hn.1, hn.2⟩]
  have htn : (Char.ofNat (c.toNat - 32)).toNat = c.toNat - 32 := by
    simp only [Char.ofNat, hv, dif_pos]
    simp [Char.ofNatAux, Char.toNat, UInt32.toNat]
  have hne : c.toUpper ≠ c := by
    intro he
    have h2 : c.toUpper.toNat = c.toNat := by rw [he]
    rw [hup, htn] at h2
    omega
  simp [beq_iff_eq]
  exact fun he => hne he.symm

/-! ## Claim theorems -/

/-- Claim C1: evidence of a code bug.  In the flagged position (a
conditionally derived call inside a template-expression slot that is a
direct child of a template container with non-whitespace siblings), a call
to `toLocaleString` is reported at the enclosing call expression, but the
identical call to `toString` is NOT reported — the outer guard of the
`Identifier` visitor only admits the name `toLocaleString`, contradicting
the rule's own comment and its inner condition — and a call to any other
callee (`getSomeValue()`) is never reported.  The three runs below are
over `<p>{val ? val.toString() : <span>bar</span>} <span>hello</span></p>`,
the same tree with `toLocaleString`, and the same tree with
`getSomeValue()`. -/
theorem c1_tostring_call_never_reported :
    NoConditionalTextNodes.runDetector
        (.jsxElement 1 1
          [.jsxExpressionContainer 2 2
            (.conditionalExpression 3 3 (.identifier 13 4 ("val"))
              (.callExpression 4 5
                (.memberExpression 5 5 (.identifier 6 5 ("val"))
                  (.identifier 7 6 ("toString"))) [])
              (.jsxElement 8 7 [.jsxText 9 8 ("bar")])),
           .jsxText 10 9 (" "),
           .jsxElement 11 10 [.jsxText 12 11 ("hello")]]) = [] ∧
    NoConditionalTextNodes.runDetector
        (.jsxElement 1 1
          [.jsxExpressionContainer 2 2
            (.conditionalExpression 3 3 (.identifier 13 4 ("val"))
              (.callExpression 4 5
                (.memberExpression 5 5 (.identifier 6 5 ("val"))
                  (.identifier 7 6 ("toLocaleString"))) [])
              (.jsxElement 8 7 [.jsxText 9 8 ("bar")])),
           .jsxText 10 9 (" "),
           .jsxElement 11 10 [.jsxText 12 11 ("hello")]]) =
      [⟨4, "conditional-text-node"⟩] ∧
    NoConditionalTextNodes.runDetector
        (.jsxElement 1 1
          [.jsxExpressionContainer 2 2
            (.conditionalExpression 3 3 (.identifier 13 4 ("val"))
              (.callExpression 4 5 (.identifier 6 5 ("getSomeValue")) [])
              (.jsxElement 8 7 [.jsxText 9 8 ("bar")])),
           .jsxText 10 9 (" "),
           .jsxElement 11 10 [.jsxText 12 11 ("hello")]]) = [] := by
  refine ⟨?_, ?_, ?_⟩ <;>
    (simp only [NoConditionalTextNodes.runDetector, NoConditionalTextNodes.walk,
      NoConditionalTextNodes.walkList, NoConditionalTextNodes.walkOpt]; decide)

/-- Claim C2, counterexample: contrary to the claimed one-level depth
limit, the two-level access `val.a.b` in the flagged position IS reported:
running the detector over
`<p>{val ? val.a.b : <span>bar</span>} <span>hello</span></p>` yields
exactly one diagnostic located at the `val.a.b` member expression
(node id 4). -/
theorem c2_counterexample_nested_member_is_reported :
    NoConditionalTextNodes.runDetector
        (.jsxElement 1 1
          [.jsxExpressionContainer 2 2
            (.conditionalExpression 3 3 (.identifier 13 4 ("val"))
              (.memberExpression 4 5
                (.memberExpression 5 5 (.identifier 6 5 ("val")) (.identifier 7 6 ("a")))
                (.identifier 8 7 ("b")))
              (.jsxElement 9 8 [.jsxText 10 9 ("bar")])),
           .jsxText 11 10 (" "),
           .jsxElement 12 11 [.jsxText 14 12 ("hello")]]) =
      [⟨4, "conditional-text-node"⟩] := by
  simp only [NoConditionalTextNodes.runDetector, NoConditionalTextNodes.walk,
    NoConditionalTextNodes.walkList, NoConditionalTextNodes.walkOpt]
  decide

/-- Claim C2 as amended: a conditionally derived member access inside a
template-expression slot whose container has non-whitespace siblings (and
which is not itself a condition test) is reported regardless of the depth
of the accessed chain — the visitor places no constraint on the `object`
of the member expression, so `val.a` and `val.a.b` are both reported in
the identical position. -/
theorem c2_member_access_reported_any_depth :
    ∀ (i s : Nat) (o pr ce cont el : Node) (rest : List Node),
      (typeOf ce = "ConditionalExpression" ∨ typeOf ce = "LogicalExpression") →
      NoConditionalTextNodes.isCondition (ce :: cont :: el :: rest)
          (.memberExpression i s o pr) = false →
      typeOf cont = "JSXExpressionContainer" →
      typeOf el = "JSXElement" →
      NoConditionalTextNodes.hasSiblings (el :: rest) cont = true →
      NoConditionalTextNodes.memberExpressionVisitor (ce :: cont :: el :: rest)
          (.memberExpression i s o pr) = [⟨i, "conditional-text-node"⟩] := by
  intro i s o pr ce cont el rest h1 h2 h3 h4 h5
  have hbin : NoConditionalTextNodes.isBinaryExpression (ce :: cont :: el :: rest)
      (.memberExpression i s o pr) = false := by
    rcases h1 with h | h <;>
      simp [NoConditionalTextNodes.isBinaryExpression, h]
  have hcr : NoConditionalTextNodes.isConditionallyRendered (ce :: cont :: el :: rest)
      = true := by
    rcases h1 with h | h <;>
      simp [NoConditionalTextNodes.isConditionallyRendered, h]
  simp [NoConditionalTextNodes.memberExpressionVisitor, h2, hbin, hcr,
    NoConditionalTextNodes.isChildOfJSXEspressionContainer,
    NoConditionalTextNodes.isChildOfJSXElement, h3, h4, h5]

/-- Witness for C2: the amended theorem applied to the concrete one-level
access `val.a` and to the concrete two-level access `val.a.b`, each inside
`<p>{val ? _ : <span>bar</span>} <span>hello</span></p>`. -/
theorem c2_member_access_witness :
    NoConditionalTextNodes.memberExpressionVisitor
        [.conditionalExpression 3 3 (.identifier 13 4 ("val"))
           (.memberExpression 4 5 (.identifier 6 5 ("val")) (.identifier 7 6 ("a")))
           (.jsxElement 9 8 [.jsxText 10 9 ("bar")]),
         .jsxExpressionContainer 2 2
           (.conditionalExpression 3 3 (.identifier 13 4 ("val"))
             (.memberExpression 4 5 (.identifier 6 5 ("val")) (.identifier 7 6 ("a")))
             (.jsxElement 9 8 [.jsxText 10 9 ("bar")])),
         .jsxElement 1 1
           [.jsxExpressionContainer 2 2
             (.conditionalExpression 3 3 (.identifier 13 4 ("val"))
               (.memberExpression 4 5 (.identifier 6 5 ("val")) (.identifier 7 6 ("a")))
               (.jsxElement 9 8 [.jsxText 10 9 ("bar")])),
            .jsxText 11 10 (" "),
            .jsxElement 12 11 [.jsxText 14 12 ("hello")]]]
        (.memberExpression 4 5 (.identifier 6 5 ("val")) (.identifier 7 6 ("a"))) =
      [⟨4, "conditional-text-node"⟩] ∧
    NoConditionalTextNodes.memberExpressionVisitor
        [.conditionalExpression 23 3 (.identifier 33 4 ("val"))
           (.memberExpression 24 5
             (.memberExpression 25 5 (.identifier 26 5 ("val")) (.identifier 27 6 ("a")))
             (.identifier 28 7 ("b")))
           (.jsxElement 29 8 [.jsxText 30 9 ("bar")]),
         .jsxExpressionContainer 22 2
           (.conditionalExpression 23 3 (.identifier 33 4 ("val"))
             (.memberExpression 24 5
               (.memberExpression 25 5 (.identifier 26 5 ("val")) (.identifier 27 6 ("a")))
               (.identifier 28 7 ("b")))
             (.jsxElement 29 8 [.jsxText 30 9 ("bar")])),
         .jsxElement 21 1
           [.jsxExpressionContainer 22 2
             (.conditionalExpression 23 3 (.identifier 33 4 ("val"))
               (.memberExpression 24 5
                 (.memberExpression 25 5 (.identifier 26 5 ("val")) (.identifier 27 6 ("a")))
                 (.identifier 28 7 ("b")))
               (.jsxElement 29 8 [.jsxText 30 9 ("bar")])),
            .jsxText 31 10 (" "),
            .jsxElement 32 11 [.jsxText 34 12 ("hello")]]]
        (.memberExpression 24 5
          (.memberExpression 25 5 (.identifier 26 5 ("val")) (.identifier 27 6 ("a")))
          (.identifier 28 7 ("b"))) =
      [⟨24, "conditional-text-node"⟩] :=
  ⟨c2_member_access_reported_any_depth 4 5 _ _ _ _ _ _ (Or.inl rfl) (by decide) rfl rfl
     (by decide),
   c2_member_access_reported_any_depth 24 5 _ _ _ _ _ _ (Or.inl rfl) (by decide) rfl rfl
     (by decide)⟩

/-- Claim C3, counterexample: the whitespace exemption does NOT extend to a
node whose raw value is the empty string.  An empty-string literal trims
to the empty string, yet in the flagged position it IS reported: running
the detector over
`<p>{val ? '' : <span>bar</span>} <span>hello</span></p>` yields one
diagnostic at the empty-string literal (node id 4), because the source's
`isWhitespace` deliberately requires a non-empty raw value. -/
theorem c3_counterexample_empty_string_literal_reported :
    NoConditionalTextNodes.runDetector
        (.jsxElement 1 1
          [.jsxExpressionContainer 2 2
            (.conditionalExpression 3 3 (.identifier 13 4 ("val"))
              (.literal 4 5 (.str ("")))
              (.jsxElement 9 8 [.jsxText 10 9 ("bar")])),
           .jsxText 11 10 (" "),
           .jsxElement 12 11 [.jsxText 14 12 ("hello")]]) =
      [⟨4, "conditional-text-node"⟩] := by
  simp only [NoConditionalTextNodes.runDetector, NoConditionalTextNodes.walk,
    NoConditionalTextNodes.walkList, NoConditionalTextNodes.walkOpt]
  decide

/-- Claim C3 as amended: for every text-bearing node that is
whitespace-only in the source's sense (raw value non-empty and trimming to
the empty string), no matcher of the conditional-sibling detector ever
matches it, in any sibling or conditional context; the empty-string case
is excluded (see the counterexample). -/
theorem c3_whitespace_only_never_matched :
    ∀ (ctx : List Node) (n : Node),
      NoConditionalTextNodes.isWhitespace n = true →
      NoConditionalTextNodes.literalVisitor ctx n = [] ∧
      NoConditionalTextNodes.templateLiteralVisitor ctx n = [] ∧
      NoConditionalTextNodes.jsxTextVisitor ctx n = [] ∧
      NoConditionalTextNodes.memberExpressionVisitor ctx n = [] ∧
      NoConditionalTextNodes.identifierVisitor ctx n = [] ∧
      NoConditionalTextNodes.visitNode ctx n = [] := by
  intro ctx n h
  have hmain :
      NoConditionalTextNodes.literalVisitor ctx n = [] ∧
      NoConditionalTextNodes.templateLiteralVisitor ctx n = [] ∧
      NoConditionalTextNodes.jsxTextVisitor ctx n = [] ∧
      NoConditionalTextNodes.memberExpressionVisitor ctx n = [] ∧
      NoConditionalTextNodes.identifierVisitor ctx n = [] := by
    cases n with
    | literal i s v =>
        cases v with
        | str sv =>
            refine ⟨?_, rfl, rfl, rfl, rfl⟩
            simp [NoConditionalTextNodes.literalVisitor, h]
        | num nv => simp [NoConditionalTextNodes.isWhitespace] at h
        | bool bv => simp [NoConditionalTextNodes.isWhitespace] at h
        | null => simp [NoConditionalTextNodes.isWhitespace] at h
    | jsxText i s sv =>
        refine ⟨rfl, rfl, ?_, rfl, rfl⟩
        simp [NoConditionalTextNodes.jsxTextVisitor, h]
    | templateLiteral i s es => simp [NoConditionalTextNodes.isWhitespace] at h
    | identifier i s nm => simp [NoConditionalTextNodes.isWhitespace] at h
    | memberExpression i s o p => simp [NoConditionalTextNodes.isWhitespace] at h
    | callExpression i s c args => simp [NoConditionalTextNodes.isWhitespace] at h
    | conditionalExpression i s t c a => simp [NoConditionalTextNodes.isWhitespace] at h
    | logicalExpression i s l r => simp [NoConditionalTextNodes.isWhitespace] at h
    | binaryExpression i s l r => simp [NoConditionalTextNodes.isWhitespace] at h
    | jsxElement i s kids => simp [NoConditionalTextNodes.isWhitespace] at h
    | jsxExpressionContainer i s e => simp [NoConditionalTextNodes.isWhitespace] at h
    | returnStatement i s arg => simp [NoConditionalTextNodes.isWhitespace] at h
    | blockStatement i s body => simp [NoConditionalTextNodes.isWhitespace] at h
    | ifStatement i s t c a => simp [NoConditionalTextNodes.isWhitespace] at h
    | loopStatement i s k b => simp [NoConditionalTextNodes.isWhitespace] at h
    | switchCase i s cs => simp [NoConditionalTextNodes.isWhitespace] at h
    | switchStatement i s cs => simp [NoConditionalTextNodes.isWhitespace] at h
    | tryStatement i s b hh f => simp [NoConditionalTextNodes.isWhitespace] at h
    | functionDeclaration i s nm b => simp [NoConditionalTextNodes.isWhitespace] at h
    | expressionStatement i s e => simp [NoConditionalTextNodes.isWhitespace] at h
  refine ⟨hmain.1, hmain.2.1, hmain.2.2.1, hmain.2.2.2.1, hmain.2.2.2.2, ?_⟩
  simp [NoConditionalTextNodes.visitNode, hmain.1, hmain.2.1, hmain.2.2.1,
    hmain.2.2.2.1, hmain.2.2.2.2]

/-- Witness for C3: the amended theorem applied to a single-space literal
with an empty ancestor context. -/
theorem c3_whitespace_only_witness :
    NoConditionalTextNodes.literalVisitor [] (.literal 0 0 (.str (" "))) = [] ∧
    NoConditionalTextNodes.templateLiteralVisitor [] (.literal 0 0 (.str (" "))) = [] ∧
    NoConditionalTextNodes.jsxTextVisitor [] (.literal 0 0 (.str (" "))) = [] ∧
    NoConditionalTextNodes.memberExpressionVisitor [] (.literal 0 0 (.str (" "))) = [] ∧
    NoConditionalTextNodes.identifierVisitor [] (.literal 0 0 (.str (" "))) = [] ∧
    NoConditionalTextNodes.visitNode [] (.literal 0 0 (.str (" "))) = [] :=
  c3_whitespace_only_never_matched [] (.literal 0 0 (.str (" "))) (by decide)

/-- Claim C4: for every return statement visited by the must-return-JSX
rule, a return with an argument whose kind is not `JSXElement` — including
the `null` literal — yields exactly one diagnostic located at the return
statement itself (the diagnostic carries the return's node id, not the
argument's), a return of a JSX element yields none, and a bare `return;`
with no argument yields none. -/
theorem c4_return_jsx_per_return_diagnostics :
    (∀ (i s : Nat) (a : Node),
       ReactComponentsReturnJsx.findReturnStatements (.returnStatement i s (some a)) =
         if typeOf a != "JSXElement" then [⟨i, "return-value-is-not-jsx"⟩] else []) ∧
    (∀ (i s : Nat),
       ReactComponentsReturnJsx.findReturnStatements (.returnStatement i s none) = []) ∧
    ReactComponentsReturnJsx.findReturnStatements
        (.returnStatement 1 0 (some (.literal 2 1 .null))) =
      [⟨1, "return-value-is-not-jsx"⟩] ∧
    ReactComponentsReturnJsx.findReturnStatements
        (.returnStatement 3 0 (some (.jsxElement 4 1 []))) = [] ∧
    ReactComponentsReturnJsx.findReturnStatements (.returnStatement 5 0 none) = [] := by
  refine ⟨fun i s a => ?_, fun i s => ?_, ?_, ?_, ?_⟩ <;>
    simp [ReactComponentsReturnJsx.findReturnStatements, typeOf]

/-- Claim C5: the control-flow return walker visits exactly the return
statements reachable through structured control flow.  The conjuncts below
fully characterise the walker on every node kind: a return statement is a
terminal match (no descent into its argument); a block's statements are
visited in order; both branches of if/else are visited; a loop body is
visited once; every statement of every switch case's consequent list is
visited; the try block, catch body and finalizer are visited when present;
and every other node kind — in particular a nested function declaration,
whatever its body — contributes nothing, so returns of an inner function
are never attributed to the outer one. -/
theorem c5_walker_structured_traversal :
    (∀ (i s : Nat) (a : Node),
       ReactComponentsReturnJsx.findReturnStatements (.returnStatement i s (some a)) =
         if typeOf a != "JSXElement" then [⟨i, "return-value-is-not-jsx"⟩] else []) ∧
    (∀ (i s : Nat),
       ReactComponentsReturnJsx.findReturnStatements (.returnStatement i s none) = []) ∧
    (∀ (i s : Nat) (body : List Node),
       ReactComponentsReturnJsx.findReturnStatements (.blockStatement i s body) =
         ReactComponentsReturnJsx.frList body) ∧
    ReactComponentsReturnJsx.frList [] = [] ∧
    (∀ (n : Node) (rest : List Node),
       ReactComponentsReturnJsx.frList (n :: rest) =
         ReactComponentsReturnJsx.findReturnStatements n ++
           ReactComponentsReturnJsx.frList rest) ∧
    (∀ (i s : Nat) (t c : Node) (alt : Option Node),
       ReactComponentsReturnJsx.findReturnStatements (.ifStatement i s t c alt) =
         ReactComponentsReturnJsx.findReturnStatements c ++
           ReactComponentsReturnJsx.frOpt alt) ∧
    ReactComponentsReturnJsx.frOpt none = [] ∧
    (∀ (n : Node),
       ReactComponentsReturnJsx.frOpt (some n) =
         ReactComponentsReturnJsx.findReturnStatements n) ∧
    (∀ (i s : Nat) (k : LoopKind) (b : Node),
       ReactComponentsReturnJsx.findReturnStatements (.loopStatement i s k b) =
         ReactComponentsReturnJsx.findReturnStatements b) ∧
    (∀ (i s : Nat) (cs : List Node),
       ReactComponentsReturnJsx.findReturnStatements (.switchStatement i s cs) =
         ReactComponentsReturnJsx.frCases cs) ∧
    ReactComponentsReturnJsx.frCases [] = [] ∧
    (∀ (sc : Node) (rest : List Node),
       ReactComponentsReturnJsx.frCases (sc :: rest) =
         ReactComponentsReturnJsx.frList (consequentOf sc) ++
           ReactComponentsReturnJsx.frCases rest) ∧
    (∀ (i s : Nat) (b : Node) (h f : Option Node),
       ReactComponentsReturnJsx.findReturnStatements (.tryStatement i s b h f) =
         ReactComponentsReturnJsx.findReturnStatements b ++
           ReactComponentsReturnJsx.frOpt h ++ ReactComponentsReturnJsx.frOpt f) ∧
    (∀ (i s : Nat) (v : LitVal),
       ReactComponentsReturnJsx.findReturnStatements (.literal i s v) = []) ∧
    (∀ (i s : Nat) (es : List Node),
       ReactComponentsReturnJsx.findReturnStatements (.templateLiteral i s es) = []) ∧
    (∀ (i s : Nat) (nm : String),
       ReactComponentsReturnJsx.findReturnStatements (.identifier i s nm) = []) ∧
    (∀ (i s : Nat) (o p : Node),
       ReactComponentsReturnJsx.findReturnStatements (.memberExpression i s o p) = []) ∧
    (∀ (i s : Nat) (c : Node) (args : List Node),
       ReactComponentsReturnJsx.findReturnStatements (.callExpression i s c args) = []) ∧
    (∀ (i s : Nat) (t c a : Node),
       ReactComponentsReturnJsx.findReturnStatements
         (.conditionalExpression i s t c a) = []) ∧
    (∀ (i s : Nat) (l r : Node),
       ReactComponentsReturnJsx.findReturnStatements (.logicalExpression i s l r) = []) ∧
    (∀ (i s : Nat) (l r : Node),
       ReactComponentsReturnJsx.findReturnStatements (.binaryExpression i s l r) = []) ∧
    (∀ (i s : Nat) (kids : List Node),
       ReactComponentsReturnJsx.findReturnStatements (.jsxElement i s kids) = []) ∧
    (∀ (i s : Nat) (e : Node),
       ReactComponentsReturnJsx.findReturnStatements
         (.jsxExpressionContainer i s e) = []) ∧
    (∀ (i s : Nat) (v : String),
       ReactComponentsReturnJsx.findReturnStatements (.jsxText i s v) = []) ∧
    (∀ (i s : Nat) (cs : List Node),
       ReactComponentsReturnJsx.findReturnStatements (.switchCase i s cs) = []) ∧
    (∀ (i s : Nat) (nm : Option String) (b : Option Node),
       ReactComponentsReturnJsx.findReturnStatements
         (.functionDeclaration i s nm b) = []) ∧
    (∀ (i s : Nat) (e : Node),
       ReactComponentsReturnJsx.findReturnStatements
         (.expressionStatement i s e) = []) := by
  refine ⟨fun i s a => ?_, fun i s => ?_, fun i s body => ?_, ?_, fun n rest => ?_,
    fun i s t c alt => ?_, ?_, fun n => ?_, fun i s k b => ?_, fun i s cs => ?_, ?_,
    fun sc rest => ?_, fun i s b h f => ?_, fun i s v => ?_, fun i s es => ?_,
    fun i s nm => ?_, fun i s o p => ?_, fun i s c args => ?_, fun i s t c a => ?_,
    fun i s l r => ?_, fun i s l r => ?_, fun i s kids => ?_, fun i s e => ?_,
    fun i s v => ?_, fun i s cs => ?_, fun i s nm b => ?_, fun i s e => ?_⟩ <;>
    first
      | rfl
      | simp [ReactComponentsReturnJsx.findReturnStatements]
      | simp [ReactComponentsReturnJsx.frList]
      | simp [ReactComponentsReturnJsx.frOpt]
      | simp [ReactComponentsReturnJsx.frCases]

/-- Claim C6: a return point is flagged by the must-not-return-literal-text
rule exactly when its argument is a template literal or a string/number
literal, and is never flagged when the argument is a boolean literal, the
`null` literal, a JSX element, a function call, an identifier, or absent. -/
theorem c6_literal_text_return_classification :
    (∀ (i s : Nat) (a : Node),
       NoTextNodesVariant.findAndReportReturnStatements (.returnStatement i s (some a)) =
         if typeOf a == "TemplateLiteral" ||
            (typeOf a == "Literal" &&
              (jsTypeofValue a == "string" || jsTypeofValue a == "number"))
         then [⟨i, "return-value-is-text-node"⟩] else []) ∧
    (∀ (i s : Nat),
       NoTextNodesVariant.findAndReportReturnStatements (.returnStatement i s none) = []) ∧
    NoTextNodesVariant.findAndReportReturnStatements
        (.returnStatement 1 0 (some (.literal 2 1 (.str ("A"))))) =
      [⟨1, "return-value-is-text-node"⟩] ∧
    NoTextNodesVariant.findAndReportReturnStatements
        (.returnStatement 3 0 (some (.literal 4 1 (.num 2)))) =
      [⟨3, "return-value-is-text-node"⟩] ∧
    NoTextNodesVariant.findAndReportReturnStatements
        (.returnStatement 5 0 (some (.templateLiteral 6 1 [.literal 7 2 (.num 1)]))) =
      [⟨5, "return-value-is-text-node"⟩] ∧
    NoTextNodesVariant.findAndReportReturnStatements
        (.returnStatement 8 0 (some (.literal 9 1 (.bool true)))) = [] ∧
    NoTextNodesVariant.findAndReportReturnStatements
        (.returnStatement 10 0 (some (.literal 11 1 .null))) = [] ∧
    NoTextNodesVariant.findAndReportReturnStatements
        (.returnStatement 12 0 (some (.jsxElement 13 1 []))) = [] ∧
    NoTextNodesVariant.findAndReportReturnStatements
        (.returnStatement 14 0
          (some (.callExpression 15 1 (.identifier 16 1 ("f")) []))) = [] ∧
    NoTextNodesVariant.findAndReportReturnStatements
        (.returnStatement 17 0 (some (.identifier 18 1 ("x")))) = [] := by
  refine ⟨fun i s a => ?_, fun i s => ?_, ?_, ?_, ?_, ?_, ?_, ?_, ?_, ?_⟩ <;>
    simp [NoTextNodesVariant.findAndReportReturnStatements, typeOf, jsTypeofValue]

/-- Claim C7: the single-sibling exemption.  The first conjunct is general:
when every child of the template container other than the
template-expression slot is whitespace-only, the literal matcher reports
nothing, whatever the literal.  The remaining conjuncts run the whole
detector over `<p>{val || 'bar'}</p>` and over
`<p>{val ? 'foo' : 'bar'}</p>`, each producing zero diagnostics. -/
theorem c7_single_sibling_exemption :
    (∀ (n ce cont : Node) (i s : Nat) (kids rest : List Node),
       (∀ k ∈ kids, nid k ≠ nid cont → NoConditionalTextNodes.isWhitespace k = true) →
       NoConditionalTextNodes.literalVisitor
         (ce :: cont :: .jsxElement i s kids :: rest) n = []) ∧
    NoConditionalTextNodes.runDetector
        (.jsxElement 1 1
          [.jsxExpressionContainer 2 2
            (.logicalExpression 3 3 (.identifier 5 4 ("val"))
              (.literal 4 5 (.str ("bar"))))]) = [] ∧
    NoConditionalTextNodes.runDetector
        (.jsxElement 1 1
          [.jsxExpressionContainer 2 2
            (.conditionalExpression 3 3 (.identifier 5 4 ("val"))
              (.literal 4 5 (.str ("foo"))) (.literal 6 6 (.str ("bar"))))]) = [] := by
  refine ⟨?_, ?_, ?_⟩
  · intro n ce cont i s kids rest h
    have hS : NoConditionalTextNodes.hasSiblings (Node.jsxElement i s kids :: rest) cont
        = false := by
      simp only [NoConditionalTextNodes.hasSiblings, childrenOf, Bool.and_eq_false_iff]
      right
      rw [List.any_eq_false]
      intro k hk
      by_cases hid : nid k = nid cont
      · simp [hid]
      · simp [hid, h k hk hid]
    cases n with
    | literal ni ns v =>
        simp [NoConditionalTextNodes.literalVisitor, hS]
    | _ => rfl
  · simp only [NoConditionalTextNodes.runDetector, NoConditionalTextNodes.walk,
      NoConditionalTextNodes.walkList, NoConditionalTextNodes.walkOpt]
    decide
  · simp only [NoConditionalTextNodes.runDetector, NoConditionalTextNodes.walk,
      NoConditionalTextNodes.walkList, NoConditionalTextNodes.walkOpt]
    decide

/-- Witness for C7: the general conjunct applied to the literal `'bar'` of
`<p>{val || 'bar'}</p>`, whose slot has no sibling at all. -/
theorem c7_single_sibling_witness :
    NoConditionalTextNodes.literalVisitor
        [.logicalExpression 3 3 (.identifier 5 4 ("val")) (.literal 4 5 (.str ("bar"))),
         .jsxExpressionContainer 2 2
           (.logicalExpression 3 3 (.identifier 5 4 ("val"))
             (.literal 4 5 (.str ("bar")))),
         .jsxElement 1 1
           [.jsxExpressionContainer 2 2
             (.logicalExpression 3 3 (.identifier 5 4 ("val"))
               (.literal 4 5 (.str ("bar"))))]]
        (.literal 4 5 (.str ("bar"))) = [] :=
  c7_single_sibling_exemption.1 (.literal 4 5 (.str ("bar")))
    (.logicalExpression 3 3 (.identifier 5 4 ("val")) (.literal 4 5 (.str ("bar"))))
    (.jsxExpressionContainer 2 2
      (.logicalExpression 3 3 (.identifier 5 4 ("val")) (.literal 4 5 (.str ("bar")))))
    1 1
    [.jsxExpressionContainer 2 2
      (.logicalExpression 3 3 (.identifier 5 4 ("val")) (.literal 4 5 (.str ("bar"))))]
    [] (by decide)

/-- Claim C8: the naming gate of the return-value rules.  A function
declaration whose name starts with a lower-case letter produces zero
diagnostics whatever the rest of the name and whatever the body (only the
first character is inspected), and an anonymous function declaration
likewise produces zero diagnostics. -/
theorem c8_naming_gate_lower_case_and_anonymous_skipped :
    (∀ (i s : Nat) (c : Char) (rest : List Char) (body : Option Node),
       c.isLower = true →
       ReactComponentsReturnJsx.functionDeclarationVisitor
         (.functionDeclaration i s (some (String.mk (c :: rest))) body) = []) ∧
    (∀ (i s : Nat) (body : Option Node),
       ReactComponentsReturnJsx.functionDeclarationVisitor
         (.functionDeclaration i s none body) = []) := by
  constructor
  · intro i s c rest body hc
    cases body with
    | none => rfl
    | some b =>
        simp [ReactComponentsReturnJsx.functionDeclarationVisitor,
          ReactComponentsReturnJsx.getIsCapitalised, isLower_beq_toUpper_false c hc]
  · intro i s body
    cases body with
    | none => rfl
    | some b => rfl

/-- Witness for C8: a function named `comp` whose body returns the string
literal `'a'`, and an anonymous function with the same body, each yield
zero diagnostics. -/
theorem c8_naming_gate_witness :
    ReactComponentsReturnJsx.functionDeclarationVisitor
        (.functionDeclaration 0 0 (some (String.mk ['c', 'o', 'm', 'p']))
          (some (.blockStatement 1 0
            [.returnStatement 2 1 (some (.literal 3 2 (.str ("a"))))]))) = [] ∧
    ReactComponentsReturnJsx.functionDeclarationVisitor
        (.functionDeclaration 4 0 none
          (some (.blockStatement 5 0
            [.returnStatement 6 1 (some (.literal 7 2 (.str ("a"))))]))) = [] :=
  ⟨c8_naming_gate_lower_case_and_anonymous_skipped.1 0 0 'c' ['o', 'm', 'p'] _ (by decide),
   c8_naming_gate_lower_case_and_anonymous_skipped.2 4 0 _⟩

/-- Claim C9, counterexample: not every classifier predicate returns false
when the node lacks a parent or the parent lacks a children list.  The
whitespace classifier never consults the parent: on a single-space literal
it returns true, also when the node has no ancestor context at all, and
also when its parent is a conditional expression, which carries no
`children` property (second conjunct). -/
theorem c9_counterexample_whitespace_true_without_children :
    NoConditionalTextNodes.isWhitespace (.literal 0 0 (.str (" "))) = true ∧
    childrenOf
        (.conditionalExpression 1 0 (.identifier 2 0 ("v")) (.literal 0 0 (.str (" ")))
          (.literal 3 0 (.str ("y")))) = none :=
  ⟨by decide, rfl⟩

/-- Claim C9 as amended: every classifier predicate that consults the
parent is total and returns false when the ancestor context is empty, and
the two predicates that read the parent's `children` list also return
false whenever the parent carries no such list; the whitespace test is
parent-independent and exempt from this default (see the
counterexample). -/
theorem c9_parent_consulting_predicates_false_without_parent :
    (NoConditionalTextNodes.isConditionallyRendered [] = false ∧
     NoConditionalTextNodes.isChildOfJSXEspressionContainer [] = false ∧
     NoConditionalTextNodes.isChildOfJSXElement [] = false ∧
     NoConditionalTextNodes.functionWasCalled [] = false ∧
     NoConditionalTextNodes.getCallExpression [] = none ∧
     (∀ n : Node, NoConditionalTextNodes.hasSiblings [] n = false) ∧
     (∀ n : Node, NoConditionalTextNodes.conditionalSiblingsPreceedNode [] n = false) ∧
     (∀ n : Node, NoConditionalTextNodes.isCondition [] n = false) ∧
     (∀ n : Node, NoConditionalTextNodes.isBinaryExpression [] n = false)) ∧
    (∀ (p : Node) (rest : List Node) (n : Node),
       childrenOf p = none →
       NoConditionalTextNodes.hasSiblings (p :: rest) n = false ∧
       NoConditionalTextNodes.conditionalSiblingsPreceedNode (p :: rest) n = false) := by
  refine ⟨⟨rfl, rfl, rfl, rfl, rfl, fun n => rfl, fun n => rfl, fun n => ?_, fun n => rfl⟩,
    fun p rest n hp => ⟨?_, ?_⟩⟩
  · simp [NoConditionalTextNodes.isCondition]
  · simp [NoConditionalTextNodes.hasSiblings, hp]
  · simp [NoConditionalTextNodes.conditionalSiblingsPreceedNode, hp]

/-- Witness for C9: the children-list default applied to a parent that is a
conditional expression (which has no `children` list). -/
theorem c9_parent_lacking_children_witness :
    NoConditionalTextNodes.hasSiblings
        [.conditionalExpression 1 0 (.identifier 2 0 ("v")) (.literal 3 0 (.str ("x")))
           (.literal 4 0 (.str ("y")))]
        (.literal 3 0 (.str ("x"))) = false ∧
    NoConditionalTextNodes.conditionalSiblingsPreceedNode
        [.conditionalExpression 1 0 (.identifier 2 0 ("v")) (.literal 3 0 (.str ("x")))
           (.literal 4 0 (.str ("y")))]
        (.literal 3 0 (.str ("x"))) = false :=
  c9_parent_consulting_predicates_false_without_parent.2
    (.conditionalExpression 1 0 (.identifier 2 0 ("v")) (.literal 3 0 (.str ("x")))
      (.literal 4 0 (.str ("y"))))
    [] (.literal 3 0 (.str ("x"))) rfl

/-- Claim C10: the capitalisation check treats any name whose first
character is unchanged by upper-casing as a component name.  Whenever the
first character of the declared name satisfies `c == c.toUpper`, the
function IS scanned: the visitor's output equals the walker's output on
the body.  In particular names starting with `_`, `$` or a digit pass the
check. -/
theorem c10_first_char_fixed_by_toUpper_is_scanned :
    (∀ (i s : Nat) (c : Char) (rest : List Char) (body : Node),
       (c == c.toUpper) = true →
       ReactComponentsReturnJsx.functionDeclarationVisitor
         (.functionDeclaration i s (some (String.mk (c :: rest))) (some body)) =
         ReactComponentsReturnJsx.findReturnStatements body) ∧
    ReactComponentsReturnJsx.getIsCapitalised (String.mk ['_', 'f']) = true ∧
    ReactComponentsReturnJsx.getIsCapitalised (String.mk ['$', 'f']) = true ∧
    ReactComponentsReturnJsx.getIsCapitalised (String.mk ['0', 'f']) = true := by
  refine ⟨?_, by decide, by decide, by decide⟩
  intro i s c rest body hc
  simp [ReactComponentsReturnJsx.functionDeclarationVisitor,
    ReactComponentsReturnJsx.getIsCapitalised, hc]

/-- Witness for C10: a function named `_comp` whose body returns the string
literal `'a'` is scanned and yields the diagnostic at the return
statement. -/
theorem c10_non_letter_first_char_witness :
    ReactComponentsReturnJsx.functionDeclarationVisitor
        (.functionDeclaration 0 0 (some (String.mk ['_', 'c', 'o', 'm', 'p']))
          (some (.blockStatement 1 0
            [.returnStatement 2 1 (some (.literal 3 2 (.str ("a"))))]))) =
      [⟨2, "return-value-is-not-jsx"⟩] := by
  rw [c10_first_char_fixed_by_toUpper_is_scanned.1 0 0 '_' ['c', 'o', 'm', 'p'] _
    (by decide)]
  simp [ReactComponentsReturnJsx.findReturnStatements, ReactComponentsReturnJsx.frList,
    typeOf]
